import Mathlib

/-!
Verification of the factory-m8 core crate: the Sentinel protocol, the
FactoryCreate capability, and the foreign-key resolution engine described
by the design document.

The Sentinel trait and its implementations are embedded directly from
src/lib.rs.  Rust integer identifier types are carried by `Int` (signed)
and `Nat` (unsigned); the sentinel predicates compare with 0 only, so no
width bound is involved.
-/

set_option maxHeartbeats 1000000

namespace FactoryCore

/-- Embedding of the Rust trait `Sentinel` (src/lib.rs lines 126-134):
`sentinel()` yields the distinguished unset value of a type and
`is_sentinel(&self)` recognizes it. -/
class Sentinel (α : Type) where
  sentinel : α
  is_sentinel : α → Bool

/-- `impl Sentinel for i64 { fn sentinel() -> Self { 0 } }` -/
def i64_sentinel : Int := 0

/-- `impl Sentinel for i64 { fn is_sentinel(&self) -> bool { *self == 0 } }` -/
def i64_is_sentinel (n : Int) : Bool := n == 0

/-- `impl Sentinel for i32`, `sentinel`. -/
def i32_sentinel : Int := 0

/-- `impl Sentinel for i32`, `is_sentinel`. -/
def i32_is_sentinel (n : Int) : Bool := n == 0

/-- `impl Sentinel for i16`, `sentinel`. -/
def i16_sentinel : Int := 0

/-- `impl Sentinel for i16`, `is_sentinel`. -/
def i16_is_sentinel (n : Int) : Bool := n == 0

/-- `impl Sentinel for u64`, `sentinel`. -/
def u64_sentinel : Nat := 0

/-- `impl Sentinel for u64`, `is_sentinel`. -/
def u64_is_sentinel (n : Nat) : Bool := n == 0

/-- `impl Sentinel for u32`, `sentinel`. -/
def u32_sentinel : Nat := 0

/-- `impl Sentinel for u32`, `is_sentinel`. -/
def u32_is_sentinel (n : Nat) : Bool := n == 0

/-- `impl Sentinel for String { fn sentinel() -> Self { String::new() } }` -/
def string_sentinel : String := ""

/-- `impl Sentinel for String { fn is_sentinel(&self) -> bool { self.is_empty() } }` -/
def string_is_sentinel (s : String) : Bool := s.isEmpty

/-- The i64 implementation registered as the `Sentinel` instance carried
by `Int`. -/
instance instSentinelInt : Sentinel Int where
  sentinel := i64_sentinel
  is_sentinel := i64_is_sentinel

/-- The u64 implementation registered as the `Sentinel` instance carried
by `Nat`. -/
instance instSentinelNat : Sentinel Nat where
  sentinel := u64_sentinel
  is_sentinel := u64_is_sentinel

/-- The String implementation as an instance. -/
instance instSentinelString : Sentinel String where
  sentinel := string_sentinel
  is_sentinel := string_is_sentinel

/-- Embedding of the blanket `impl<T: Sentinel> Sentinel for Option<T>`
(src/lib.rs lines 174-185): `None` is the sentinel and is always
recognized; `Some(v)` is a sentinel exactly when `v` is. -/
instance instSentinelOption {α : Type} [Sentinel α] : Sentinel (Option α) where
  sentinel := none
  is_sentinel o :=
    match o with
    | none => true
    | some v => Sentinel.is_sentinel v

/-- Embedding of `Box<dyn Error + Send + Sync>`: an opaque boxed error
value; only its presence matters to the shape of `FactoryResult`. -/
structure BoxedError where
  msg : String

/-- Embedding of `pub type FactoryResult<T> = Result<T, Box<dyn Error + Send + Sync>>`
(src/lib.rs line 91). -/
def FactoryResult (T : Type) : Type := Except BoxedError T

/-- Embedding of the trait `FactoryCreate<Pool>` (src/lib.rs lines 228-243):
one associated entity type and one operation `create(self, pool)`
returning `FactoryResult<Entity>`. -/
class FactoryCreate (Pool : Type) (F : Type) where
  Entity : Type
  create : F → Pool → FactoryResult Entity

/-- One invocation of `is_sentinel(&self)` on a value: the Rust method
takes a shared reference, so a call yields the recognition result and
hands the value back unchanged. -/
def sentinel_check_call {α : Type} [Sentinel α] (v : α) : Bool × α :=
  (Sentinel.is_sentinel v, v)

/-- Modelled from the spec: the error taxonomy of the Resolution Engine
(section 7), which is not present under src/.  A backend failure carries
the identifier of the entity whose insert failed; the
recursion-depth-exceeded error is a distinct variant. -/
inductive FactoryError where
  | backendFailure (fid : Nat)
  | depthExceeded
deriving DecidableEq

/-- Modelled from the spec: a persisted entity row.  `key` is the
backend-assigned surrogate key (keys start at 1, so the numeric sentinel
0 is never assigned), `entity` names which factory produced the row, and
`fields` are the resolved field values. -/
structure Row where
  key : Nat
  entity : Nat
  fields : List Nat
deriving DecidableEq

/-- Modelled from the spec: the backend handle.  `rows` is the persisted
state; inserts append and assign `rows.length + 1` as the key.
`failing` lists the entity identifiers whose insert the backend
rejects, to model backend errors. -/
structure Backend where
  rows : List Row
  failing : List Nat
deriving DecidableEq

/-- Modelled from the spec: one field of a factory instance.  `value` is
the field's current key-typed value (the numeric sentinel convention,
via the u64 instance); `fk` is the optional foreign-key annotation,
carrying the child factory identifier and the `no_default` opt-out
flag. -/
structure FieldSpec where
  value : Nat
  fk : Option (Nat × Bool)
deriving DecidableEq

/-- Modelled from the spec: the per-factory field metadata produced by
the code-generation collaborator: factory identifier `i` has default
instance `g[i]`. -/
abbrev FactoryGraph := List (List FieldSpec)

/-- Modelled from the spec: the backend-specific insert step.  It either
fails with a backend error naming the entity, or appends a row whose key
is `rows.length + 1` and returns the persisted entity. -/
def insertRow (fid : Nat) (vs : List Nat) (b : Backend) :
    Except FactoryError (Row × Backend) :=
  if b.failing.contains fid then
    .error (.backendFailure fid)
  else
    let row : Row := ⟨b.rows.length + 1, fid, vs⟩
    .ok (row, { b with rows := b.rows ++ [row] })

/-- Modelled from the spec: resolution of one field (section 4.3 step
1).  A plain field and an opted-out FK field are left untouched; a FK
field holding a non-sentinel value is trusted as-is; a FK field holding
the sentinel triggers the child factory's create, and the key column of
the created entity is assigned into the field.  `create_child` is the
recursive create operation for child factories. -/
def resolveField (create_child : Nat → Backend → Except FactoryError (Row × Backend))
    (f : FieldSpec) (b : Backend) : Except FactoryError (Nat × Backend) :=
  match f.fk with
  | none => .ok (f.value, b)
  | some (c, optOut) =>
    if optOut then .ok (f.value, b)
    else if Sentinel.is_sentinel f.value then
      match create_child c b with
      | .error e => .error e
      | .ok (row, b') => .ok (row.key, b')
    else .ok (f.value, b)

/-- Modelled from the spec: resolution of a factory instance's fields in
declaration order, threading the backend; the first failure aborts the
chain (section 4.3 steps 1-2). -/
def resolveFields (create_child : Nat → Backend → Except FactoryError (Row × Backend)) :
    List FieldSpec → Backend → Except FactoryError (List Nat × Backend)
  | [], b => .ok ([], b)
  | f :: rest, b =>
    match resolveField create_child f b with
    | .error e => .error e
    | .ok (v, b') =>
      match resolveFields create_child rest b' with
      | .error e => .error e
      | .ok (vs, b'') => .ok (v :: vs, b'')

/-- Modelled from the spec: `create` of one factory instance: resolve
all fields, then run the backend-specific insert (section 4.3 step
3). -/
def createInstance (create_child : Nat → Backend → Except FactoryError (Row × Backend))
    (fid : Nat) (fields : List FieldSpec) (b : Backend) :
    Except FactoryError (Row × Backend) :=
  match resolveFields create_child fields b with
  | .error e => .error e
  | .ok (vs, b') => insertRow fid vs b'

/-- Modelled from the spec: the recursive create over default factory
instances, guarded by a bounded recursion depth: at depth 0 it fails
fast with the distinct recursion-depth-exceeded error; otherwise it
creates the default instance of the named factory, resolving children
at the reduced bound (sections 4.3 and 7). -/
def createFactory (g : FactoryGraph) : Nat → Nat → Backend → Except FactoryError (Row × Backend)
  | 0, _, _ => .error FactoryError.depthExceeded
  | fuel + 1, fid, b => createInstance (createFactory g fuel) fid (g.getD fid []) b

/-- A backend with no rows and no configured failures. -/
def emptyBackend : Backend := ⟨[], []⟩

/-- A two-factory graph: factory 0 has one FK field to factory 1, left
at the sentinel; factory 1 has no fields. -/
def demoGraph : FactoryGraph := [[⟨0, some (1, false)⟩], []]

/-- A graph whose factory 0 has a sentinel FK field pointing back at
factory 0: a dependency cycle. -/
def cyclicGraph : FactoryGraph := [[⟨0, some (0, false)⟩]]

end FactoryCore

namespace FactoryCore

/-- Claim C1: for every Sentinel implementation provided by the crate
(i64, i32, i16, u64, u32, String) the sentinel value recognizes itself,
and the blanket Option implementation recognizes its own sentinel `None`
for every sentinel-aware inner type. -/
theorem sentinel_recognizes_itself :
    i64_is_sentinel i64_sentinel = true ∧
    i32_is_sentinel i32_sentinel = true ∧
    i16_is_sentinel i16_sentinel = true ∧
    u64_is_sentinel u64_sentinel = true ∧
    u32_is_sentinel u32_sentinel = true ∧
    string_is_sentinel string_sentinel = true ∧
    (∀ (α : Type) [Sentinel α],
      Sentinel.is_sentinel (Sentinel.sentinel : Option α) = true) :=
  ⟨rfl, rfl, rfl, rfl, rfl, rfl, fun _ _ => rfl⟩

/-- Claim C2: for the Option implementation over any sentinel-aware
type, `None` is a sentinel and `Some x` is a sentinel exactly when `x`
is. -/
theorem option_sentinel_cases :
    ∀ (α : Type) [Sentinel α],
      Sentinel.is_sentinel (none : Option α) = true ∧
      ∀ x : α, Sentinel.is_sentinel (some x) = Sentinel.is_sentinel x :=
  fun _ _ => ⟨rfl, fun _ => rfl⟩

/-- Claim C3, counterexample: for `Option` the sentinel value is not the
only value recognized as a sentinel: `Some(0) : Option<i64>` is
recognized, yet it differs from the sentinel `None`. -/
theorem option_sentinel_not_unique :
    Sentinel.is_sentinel (some (0 : Int)) = true ∧
    some (0 : Int) ≠ (Sentinel.sentinel : Option Int) :=
  ⟨rfl, fun h => Option.noConfusion h⟩

/-- Claim C3 as amended: for each scalar implementation (i64, i32, i16,
u64, u32, String) the sentinel is the unique recognized value; for the
Option implementation a value is recognized exactly when it is the
sentinel `None` or it is `Some` of a recognized inner value. -/
theorem sentinel_uniqueness_amended :
    (∀ n : Int, i64_is_sentinel n = true ↔ n = i64_sentinel) ∧
    (∀ n : Int, i32_is_sentinel n = true ↔ n = i32_sentinel) ∧
    (∀ n : Int, i16_is_sentinel n = true ↔ n = i16_sentinel) ∧
    (∀ n : Nat, u64_is_sentinel n = true ↔ n = u64_sentinel) ∧
    (∀ n : Nat, u32_is_sentinel n = true ↔ n = u32_sentinel) ∧
    (∀ s : String, string_is_sentinel s = true ↔ s = string_sentinel) ∧
    (∀ (α : Type) [Sentinel α] (v : Option α),
      Sentinel.is_sentinel v = true ↔
        v = (Sentinel.sentinel : Option α) ∨
          ∃ x, v = some x ∧ Sentinel.is_sentinel x = true) := by
  refine ⟨?_, ?_, ?_, ?_, ?_, ?_, ?_⟩
  · intro n; simp [i64_is_sentinel, i64_sentinel]
  · intro n; simp [i32_is_sentinel, i32_sentinel]
  · intro n; simp [i16_is_sentinel, i16_sentinel]
  · intro n; simp [u64_is_sentinel, u64_sentinel]
  · intro n; simp [u32_is_sentinel, u32_sentinel]
  · intro s
    simpa [string_is_sentinel, string_sentinel] using String.isEmpty_iff s
  · intro α inst v
    cases v with
    | none =>
        simp [Sentinel.is_sentinel, Sentinel.sentinel, instSentinelOption]
    | some x =>
        simp [Sentinel.is_sentinel, Sentinel.sentinel, instSentinelOption]

/-- Claim C3, amended theorem evaluated at concrete inputs. -/
theorem sentinel_uniqueness_amended_witness :
    (i64_is_sentinel 0 = true ↔ (0 : Int) = i64_sentinel) ∧
    (string_is_sentinel string_sentinel = true ↔ string_sentinel = string_sentinel) :=
  ⟨sentinel_uniqueness_amended.1 0,
    (sentinel_uniqueness_amended.2.2.2.2.2.1) string_sentinel⟩

/-- Claim C4: for each numeric identifier implementation, 0 is the
sentinel and every nonzero value (negative values included for the
signed types) is not. -/
theorem numeric_sentinel_zero :
    (i64_is_sentinel 0 = true ∧ ∀ n : Int, n ≠ 0 → i64_is_sentinel n = false) ∧
    (i32_is_sentinel 0 = true ∧ ∀ n : Int, n ≠ 0 → i32_is_sentinel n = false) ∧
    (i16_is_sentinel 0 = true ∧ ∀ n : Int, n ≠ 0 → i16_is_sentinel n = false) ∧
    (u64_is_sentinel 0 = true ∧ ∀ n : Nat, n ≠ 0 → u64_is_sentinel n = false) ∧
    (u32_is_sentinel 0 = true ∧ ∀ n : Nat, n ≠ 0 → u32_is_sentinel n = false) := by
  refine ⟨⟨rfl, ?_⟩, ⟨rfl, ?_⟩, ⟨rfl, ?_⟩, ⟨rfl, ?_⟩, ⟨rfl, ?_⟩⟩ <;>
    intro n h <;> simpa [i64_is_sentinel, i32_is_sentinel, i16_is_sentinel,
      u64_is_sentinel, u32_is_sentinel] using h

/-- Claim C4 evaluated at concrete nonzero inputs, negatives included. -/
theorem numeric_sentinel_zero_witness :
    i64_is_sentinel (-1) = false ∧ i32_is_sentinel (-7) = false ∧
    i16_is_sentinel (-1) = false ∧ u64_is_sentinel 1 = false ∧
    u32_is_sentinel 42 = false :=
  ⟨numeric_sentinel_zero.1.2 (-1) (by decide),
    numeric_sentinel_zero.2.1.2 (-7) (by decide),
    numeric_sentinel_zero.2.2.1.2 (-1) (by decide),
    numeric_sentinel_zero.2.2.2.1.2 1 (by decide),
    numeric_sentinel_zero.2.2.2.2.2 42 (by decide)⟩

/-- Claim C9: sentinel recognition performs no hidden mutation: a call
returns the value unchanged, and a second call on the returned value
yields the same result as the first, for every value of every
sentinel-aware type (the provided implementations included through
their instances). -/
theorem is_sentinel_idempotent :
    ∀ (α : Type) [Sentinel α] (v : α),
      (sentinel_check_call v).2 = v ∧
      (sentinel_check_call (sentinel_check_call v).2).1 = (sentinel_check_call v).1 :=
  fun _ _ _ => ⟨rfl, rfl⟩

/-- Claim C10: each provided implementation's sentinel is the carrier's
default value: 0 for the integer identifier types, the empty string for
String, and `None` for Option. -/
theorem sentinel_eq_default :
    i64_sentinel = (default : Int) ∧
    i32_sentinel = (default : Int) ∧
    i16_sentinel = (default : Int) ∧
    u64_sentinel = (default : Nat) ∧
    u32_sentinel = (default : Nat) ∧
    string_sentinel = (default : String) ∧
    (∀ (α : Type) [Sentinel α], (Sentinel.sentinel : Option α) = (default : Option α)) :=
  ⟨rfl, rfl, rfl, rfl, rfl, rfl, fun _ _ => rfl⟩

/-- Claim C8: every factory exposes the single operation `create`, whose
outcome is `FactoryResult`, and the error side of `FactoryResult` is the
one uniform boxed shape for every success type and every backend: the
result type never depends on which backend produced a failure. -/
theorem factory_result_uniform_error :
    (∀ T : Type, FactoryResult T = Except BoxedError T) ∧
    (∀ (Pool F : Type) (inst : FactoryCreate Pool F) (f : F) (p : Pool),
      ∃ r : FactoryResult (@FactoryCreate.Entity Pool F inst),
        @FactoryCreate.create Pool F inst f p = r) :=
  ⟨fun _ => rfl, fun _ _ _ _ _ => ⟨_, rfl⟩⟩

/-- A successful insert returns the row it appended, keyed one past the
current row count. -/
theorem insertRow_ok (fid : Nat) (vs : List Nat) (b : Backend) (row : Row) (b' : Backend)
    (h : insertRow fid vs b = .ok (row, b')) :
    row = ⟨b.rows.length + 1, fid, vs⟩ ∧ b' = { b with rows := b.rows ++ [row] } := by
  unfold insertRow at h
  split at h
  · exact absurd h (by simp)
  · simp only [Except.ok.injEq, Prod.mk.injEq] at h
    obtain ⟨h1, h2⟩ := h
    subst h1
    exact ⟨rfl, h2.symm⟩

/-- A key assigned by a successful create is never the numeric
sentinel: backend keys start at 1. -/
theorem createFactory_key_not_sentinel (g : FactoryGraph) (fuel c : Nat) (b : Backend)
    (row : Row) (b' : Backend) (h : createFactory g fuel c b = .ok (row, b')) :
    Sentinel.is_sentinel row.key = false := by
  cases fuel with
  | zero => simp [createFactory] at h
  | succ fuel =>
    unfold createFactory createInstance at h
    cases hr : resolveFields (createFactory g fuel) (g.getD c []) b with
    | error e => rw [hr] at h; simp at h
    | ok p =>
      obtain ⟨vs, b₁⟩ := p
      rw [hr] at h
      simp only at h
      have hk := (insertRow_ok c vs b₁ row b' h).1
      rw [hk]
      rfl

/-- Successful resolution of a concatenated field list decomposes into
successful resolution of each part, threading the backend through. -/
theorem resolveFields_append (cc : Nat → Backend → Except FactoryError (Row × Backend))
    (pre rest : List FieldSpec) (b : Backend) (vs : List Nat) (b₂ : Backend)
    (h : resolveFields cc (pre ++ rest) b = .ok (vs, b₂)) :
    ∃ vs₁ b₁ vs₂, resolveFields cc pre b = .ok (vs₁, b₁) ∧
      resolveFields cc rest b₁ = .ok (vs₂, b₂) ∧
      vs = vs₁ ++ vs₂ ∧ vs₁.length = pre.length := by
  induction pre generalizing b vs with
  | nil => exact ⟨[], b, vs, rfl, h, rfl, rfl⟩
  | cons f pre ih =>
    rw [List.cons_append] at h
    unfold resolveFields at h
    cases hf : resolveField cc f b with
    | error e => rw [hf] at h; simp at h
    | ok p =>
      obtain ⟨v, b'⟩ := p
      rw [hf] at h
      simp only at h
      cases hr : resolveFields cc (pre ++ rest) b' with
      | error e => rw [hr] at h; simp at h
      | ok q =>
        obtain ⟨vs', b''⟩ := q
        rw [hr] at h
        simp only [Except.ok.injEq, Prod.mk.injEq] at h
        obtain ⟨hvs, hb⟩ := h
        subst hb
        obtain ⟨vs₁, b₁, vs₂, h1, h2, h3, h4⟩ := ih b' vs' hr
        refine ⟨v :: vs₁, b₁, vs₂, ?_, h2, ?_, ?_⟩
        · unfold resolveFields
          rw [hf]
          simp only
          rw [h1]
        · rw [← hvs, h3]; rfl
        · simp [h4]

/-- Claim C5: when a factory instance has a FK field left at its
sentinel with no opt-out, a successful create resolves that field
through the child factory's create: in the produced entity the field
equals the key column of the entity the child create returned, and it
is no longer the sentinel. -/
theorem create_resolves_sentinel_fk (g : FactoryGraph) (fuel fid : Nat) (b : Backend)
    (pre rest : List FieldSpec) (f : FieldSpec) (c : Nat) (ent : Row) (bfin : Backend)
    (hfk : f.fk = some (c, false))
    (hs : Sentinel.is_sentinel f.value = true)
    (h : createInstance (createFactory g fuel) fid (pre ++ f :: rest) b = .ok (ent, bfin)) :
    ∃ (b₁ b₂ : Backend) (row : Row),
      createFactory g fuel c b₁ = .ok (row, b₂) ∧
      ent.fields[pre.length]? = some row.key ∧
      Sentinel.is_sentinel row.key = false := by
  unfold createInstance at h
  cases hr : resolveFields (createFactory g fuel) (pre ++ f :: rest) b with
  | error e => rw [hr] at h; simp at h
  | ok p =>
    obtain ⟨vs, bmid⟩ := p
    rw [hr] at h
    simp only at h
    have hent := (insertRow_ok fid vs bmid ent bfin h).1
    obtain ⟨vs₁, b₁, vs₂, h1, h2, h3, h4⟩ :=
      resolveFields_append (createFactory g fuel) pre (f :: rest) b vs bmid hr
    unfold resolveFields at h2
    unfold resolveField at h2
    rw [hfk] at h2
    simp only [hs, if_true, if_false, Bool.false_eq_true, ite_false, ite_true] at h2
    cases hc : createFactory g fuel c b₁ with
    | error e => rw [hc] at h2; simp at h2
    | ok q =>
      obtain ⟨row, b₂⟩ := q
      rw [hc] at h2
      simp only at h2
      cases hrest : resolveFields (createFactory g fuel) rest b₂ with
      | error e => rw [hrest] at h2; simp at h2
      | ok r =>
        obtain ⟨vs₃, b₃⟩ := r
        rw [hrest] at h2
        simp only [Except.ok.injEq, Prod.mk.injEq] at h2
        obtain ⟨hv2, hb3⟩ := h2
        refine ⟨b₁, b₂, row, hc, ?_, createFactory_key_not_sentinel g fuel c b₁ row b₂ hc⟩
        rw [hent]
        simp only
        rw [h3, ← hv2, ← h4]
        rw [List.getElem?_append_right (le_refl vs₁.length)]
        simp

/-- Claim C5 exercised on a concrete two-factory graph: factory 0's
sentinel FK field resolves to the key of the row factory 1 created. -/
theorem create_resolves_sentinel_fk_witness :
    ∃ (b₁ b₂ : Backend) (row : Row),
      createFactory demoGraph 1 1 b₁ = .ok (row, b₂) ∧
      (Row.mk 2 0 [1]).fields[(0 : Nat)]? = some row.key ∧
      Sentinel.is_sentinel row.key = false :=
  create_resolves_sentinel_fk demoGraph 1 0 emptyBackend [] [] ⟨0, some (1, false)⟩ 1
    ⟨2, 0, [1]⟩ ⟨[⟨1, 1, []⟩, ⟨2, 0, [1]⟩], []⟩ rfl rfl rfl

/-- Claim C6: when a factory instance has a FK field explicitly set to
a non-sentinel value, create leaves it unchanged: resolving that field
is the identity on every backend state (so no child create runs and no
row is inserted for it), and the produced entity carries the caller's
value at that field. -/
theorem create_keeps_explicit_fk (g : FactoryGraph) (fuel fid : Nat) (b : Backend)
    (pre rest : List FieldSpec) (f : FieldSpec) (c : Nat) (optOut : Bool)
    (ent : Row) (bfin : Backend)
    (hfk : f.fk = some (c, optOut))
    (hs : Sentinel.is_sentinel f.value = false)
    (h : createInstance (createFactory g fuel) fid (pre ++ f :: rest) b = .ok (ent, bfin)) :
    (∀ b' : Backend, resolveField (createFactory g fuel) f b' = .ok (f.value, b')) ∧
    ent.fields[pre.length]? = some f.value := by
  have huntouched : ∀ b' : Backend,
      resolveField (createFactory g fuel) f b' = .ok (f.value, b') := by
    intro b'
    unfold resolveField
    rw [hfk]
    cases optOut with
    | true => simp
    | false => simp [hs]
  refine ⟨huntouched, ?_⟩
  unfold createInstance at h
  cases hr : resolveFields (createFactory g fuel) (pre ++ f :: rest) b with
  | error e => rw [hr] at h; simp at h
  | ok p =>
    obtain ⟨vs, bmid⟩ := p
    rw [hr] at h
    simp only at h
    have hent := (insertRow_ok fid vs bmid ent bfin h).1
    obtain ⟨vs₁, b₁, vs₂, h1, h2, h3, h4⟩ :=
      resolveFields_append (createFactory g fuel) pre (f :: rest) b vs bmid hr
    unfold resolveFields at h2
    rw [huntouched b₁] at h2
    simp only at h2
    cases hrest : resolveFields (createFactory g fuel) rest b₁ with
    | error e => rw [hrest] at h2; simp at h2
    | ok r =>
      obtain ⟨vs₃, b₃⟩ := r
      rw [hrest] at h2
      simp only [Except.ok.injEq, Prod.mk.injEq] at h2
      obtain ⟨hv2, hb3⟩ := h2
      rw [hent]
      simp only
      rw [h3, ← hv2, ← h4]
      rw [List.getElem?_append_right (le_refl vs₁.length)]
      simp

/-- Claim C6 exercised concretely: the FK field pre-set to 7 stays 7,
resolution leaves the backend untouched, and the created entity holds
7 (one row total: only the parent's own insert happened). -/
theorem create_keeps_explicit_fk_witness :
    resolveField (createFactory demoGraph 1) ⟨7, some (1, false)⟩ emptyBackend =
      .ok (7, emptyBackend) ∧
    (Row.mk 1 0 [7]).fields[(0 : Nat)]? = some 7 :=
  ⟨(create_keeps_explicit_fk demoGraph 1 0 emptyBackend [] [] ⟨7, some (1, false)⟩ 1 false
      ⟨1, 0, [7]⟩ ⟨[⟨1, 0, [7]⟩], []⟩ rfl rfl rfl).1 emptyBackend,
    (create_keeps_explicit_fk demoGraph 1 0 emptyBackend [] [] ⟨7, some (1, false)⟩ 1 false
      ⟨1, 0, [7]⟩ ⟨[⟨1, 0, [7]⟩], []⟩ rfl rfl rfl).2⟩

/-- Claim C7: the engine bounds its recursion: at the depth limit every
create fails fast with the recursion-depth-exceeded error, that error
is distinct from every backend error, and on a cyclic dependency graph
the guard fires at every depth bound instead of diverging. -/
theorem recursion_depth_guard :
    (∀ (g : FactoryGraph) (fid : Nat) (b : Backend),
        createFactory g 0 fid b = .error FactoryError.depthExceeded) ∧
    (∀ fid : Nat, FactoryError.depthExceeded ≠ FactoryError.backendFailure fid) ∧
    (∀ (fuel : Nat) (b : Backend),
        createFactory cyclicGraph fuel 0 b = .error FactoryError.depthExceeded) := by
  refine ⟨fun _ _ _ => rfl, fun fid h => FactoryError.noConfusion h, ?_⟩
  intro fuel
  induction fuel with
  | zero => intro _; rfl
  | succ fuel ih =>
    intro b
    have h0 : Sentinel.is_sentinel (0 : Nat) = true := rfl
    have ih' : createFactory [[FieldSpec.mk 0 (some (0, false))]] fuel 0 b =
        .error FactoryError.depthExceeded := ih b
    simp [createFactory, createInstance, resolveFields, resolveField, cyclicGraph,
      List.getD, h0, ih']

/-- Claim C7 exercised concretely on the cyclic graph at two depth
bounds. -/
theorem recursion_depth_guard_witness :
    createFactory cyclicGraph 0 0 emptyBackend = .error FactoryError.depthExceeded ∧
    createFactory cyclicGraph 3 0 emptyBackend = .error FactoryError.depthExceeded :=
  ⟨recursion_depth_guard.1 cyclicGraph 0 emptyBackend,
    recursion_depth_guard.2.2 3 emptyBackend⟩

end FactoryCore
